import Mathlib

/-!
Shallow embedding of the TF-Luna I2C driver (`src/TFLI2C.cpp`) and proofs
about its register-access primitives, measurement acquisition and explicit
commands.  The driver is embedded as pure functions over an explicit
`DriverState` (the fields `tfStatus`, `regReply`, `dataArray` of the C++
class) and an abstract bus transport `TwoWire σ` (the C++ code is itself
parametric over the bus via `Set_Bus`).  Two transports are instantiated:
an oracle that replays a list of transaction outcomes and logs every
transaction performed, and a register file that returns from each register
the byte most recently written to it.
-/

namespace TFLI2C

/-- Status codes of the driver, mirroring the `TFL_...` status constants
used by `TFLI2C.cpp` (`printStatus` enumerates them). -/
inductive Status where
  | TFL_READY
  | TFL_SERIAL
  | TFL_HEADER
  | TFL_CHECKSUM
  | TFL_TIMEOUT
  | TFL_PASS
  | TFL_FAIL
  | TFL_I2CREAD
  | TFL_I2CWRITE
  | TFL_I2CLENGTH
  | TFL_WEAK
  | TFL_STRONG
  | TFL_FLOOD
  | TFL_INVALID
  | TFL_OTHER
  deriving DecidableEq

/-- Outcome of one bus transaction as observed by the driver:
`wfail` is a non-zero `endTransmission()` status, `rfail` is
`peek() == -1` after `requestFrom` (no byte available), and `ok b` is a
successful exchange delivering byte `b`. -/
inductive BusResp where
  | wfail
  | rfail
  | ok (b : Nat)
  deriving DecidableEq

/-- One bus transaction performed by the driver: a register read
(`beginTransmission`/`write reg`/`endTransmission`/`requestFrom`/`read`)
or a register write (`beginTransmission`/`write reg`/`write data`/
`endTransmission`). -/
inductive Txn where
  | rd (addr reg : Nat)
  | wr (addr reg data : Nat)
  deriving DecidableEq

/-- Abstract bus transport with state type `σ`, the collaborator the C++
code reaches through its `_Wire` pointer (installed by `Set_Bus`).
`readTxn bs addr reg` performs one read transaction, `writeTxn bs addr reg
data` one write transaction; both return the outcome and the next bus
state. -/
structure TwoWire (σ : Type) where
  readTxn : σ → Nat → Nat → BusResp × σ
  writeTxn : σ → Nat → Nat → Nat → BusResp × σ

/-- Mutable fields of the `TFLI2C` class: the status slot `tfStatus`, the
one-byte reply buffer `regReply` and the six-byte `dataArray` (modelled as
a function from index to byte). -/
structure DriverState where
  tfStatus : Status
  regReply : Nat
  dataArray : Nat → Nat

/-- Result of a `bool`-returning operation: the returned flag, the driver
state and the bus state after the call. -/
structure OpRes (σ : Type) where
  ok : Bool
  st : DriverState
  bus : σ

/-- Result of `getData`: the returned flag, the caller's three `int16_t`
output variables after the call, the driver state and the bus state. -/
structure GDRes (σ : Type) where
  ok : Bool
  dist : Int
  flux : Int
  temp : Int
  st : DriverState
  bus : σ

/-- Result of a buffer-filling operation (`Get_Prod_Code`,
`Get_Firmware_Version`): the returned flag, the caller's buffer after the
call, the driver state and the bus state. -/
structure BufRes (σ : Type) where
  ok : Bool
  buf : Nat → Nat
  st : DriverState
  bus : σ

/-- Result of an operation returning a 16-bit value through a reference
(`Get_Frame_Rate`, `Get_Time`): the returned flag, the caller's variable
after the call, the driver state and the bus state. -/
structure ValRes (σ : Type) where
  ok : Bool
  val : Nat
  st : DriverState
  bus : σ

/-- Pointwise update of a byte array modelled as a function. -/
def updArr (a : Nat → Nat) (i v : Nat) : Nat → Nat :=
  fun j => if j = i then v else a j

/-- Conversion of a C `int` value to `int16_t`, two's-complement
wrap-around as on the target platforms. -/
def toInt16 (n : Nat) : Int :=
  if n % 65536 < 32768 then ((n % 65536 : Nat) : Int)
  else ((n % 65536 : Nat) : Int) - 65536

/-- Modelled from the spec: register map constants declared in `TFLI2C.h`,
which is not under `src/`.  Section 6 of the spec fixes
distance-low/high, flux-low/high, temperature-low/high as the first six
consecutive offsets from a fixed base; the base must be 0 because
`getData` stores `dataArray[reg] = regReply` inside its loop and then
reads `dataArray[0]`..`dataArray[5]`. -/
def TFL_DIST_LO : Nat := 0x00

/-- Modelled from the spec: last register of the six-register measurement
block (see `TFL_DIST_LO`). -/
def TFL_TEMP_HI : Nat := 0x05

/-- Modelled from the spec: frame-rate low-byte register, one of the "2
consecutive registers" used by the frame-rate operations. -/
def TFL_FPS_LO : Nat := 0x26

/-- Modelled from the spec: frame-rate high-byte register, consecutive to
`TFL_FPS_LO`. -/
def TFL_FPS_HI : Nat := 0x27

/-- Modelled from the spec: save-settings command register (exact offset
immaterial to the claims). -/
def TFL_SAVE_SETTINGS : Nat := 0x20

/-- Modelled from the spec: soft-reset command register. -/
def TFL_SOFT_RESET : Nat := 0x21

/-- Modelled from the spec: set-I2C-address command register. -/
def TFL_SET_I2C_ADDR : Nat := 0x22

/-- Modelled from the spec: enable/disable command register. -/
def TFL_DISABLE : Nat := 0x25

/-- Modelled from the spec: hard-reset command register. -/
def TFL_HARD_RESET : Nat := 0x29

/-- Modelled from the spec: trigger-mode command register. -/
def TFL_SET_TRIG_MODE : Nat := 0x23

/-- Modelled from the spec: trigger command register. -/
def TFL_TRIGGER : Nat := 0x24

/-- Modelled from the spec: tick-time low-byte register. -/
def TFL_TICK_LO : Nat := 0x30

/-- Modelled from the spec: tick-time high-byte register. -/
def TFL_TICK_HI : Nat := 0x31

/-- Default device address `TFL_DEF_ADR` (documented in `TFLI2C.cpp`). -/
def TFL_DEF_ADR : Nat := 0x10

/-- Embedding of `TFLI2C::readReg`: one read transaction; a non-zero
`endTransmission` sets `TFL_I2CWRITE` and returns `false`; `peek() == -1`
sets `TFL_I2CREAD` and returns `false`; otherwise the received byte is
stored in `regReply` (cast to `uint8_t`) and the call returns `true`. -/
def readReg {σ : Type} (W : TwoWire σ) (nmbr addr : Nat) (st : DriverState) (bs : σ) :
    OpRes σ :=
  match W.readTxn bs addr nmbr with
  | (BusResp.wfail, bs') => ⟨false, { st with tfStatus := Status.TFL_I2CWRITE }, bs'⟩
  | (BusResp.rfail, bs') => ⟨false, { st with tfStatus := Status.TFL_I2CREAD }, bs'⟩
  | (BusResp.ok b, bs') => ⟨true, { st with regReply := b % 256 }, bs'⟩

/-- Embedding of `TFLI2C::writeReg`: one write transaction; a non-zero
`endTransmission` sets `TFL_I2CWRITE` and returns `false`, otherwise the
call returns `true` and the driver state is untouched. -/
def writeReg {σ : Type} (W : TwoWire σ) (nmbr addr data : Nat) (st : DriverState) (bs : σ) :
    OpRes σ :=
  match W.writeTxn bs addr nmbr data with
  | (BusResp.wfail, bs') => ⟨false, { st with tfStatus := Status.TFL_I2CWRITE }, bs'⟩
  | (_, bs') => ⟨true, st, bs'⟩

/-- Step 1 of `TFLI2C::getData`: the `for` loop over the registers
`TFL_DIST_LO .. TFL_TEMP_HI`, storing each reply into `dataArray[reg]`
and aborting with `false` on the first failing `readReg`. -/
def getDataLoop {σ : Type} (W : TwoWire σ) (addr : Nat) :
    List Nat → DriverState → σ → OpRes σ
  | [], st, bs => ⟨true, st, bs⟩
  | reg :: rest, st, bs =>
    let r := readReg W reg addr st bs
    if r.ok then
      getDataLoop W addr rest
        { r.st with dataArray := updArr r.st.dataArray reg r.st.regReply } r.bus
    else ⟨false, r.st, r.bus⟩

/-- Registers visited by the `for` loop of `getData`:
`TFL_DIST_LO, ..., TFL_TEMP_HI` inclusive. -/
def measRegs : List Nat := List.range' TFL_DIST_LO (TFL_TEMP_HI + 1 - TFL_DIST_LO)

/-- Embedding of `TFLI2C::getData`: clear `tfStatus` to `TFL_READY`, read
the six measurement registers, assemble the three little-endian `int16_t`
fields, then apply the flux validity policy (`flux < 100` → `TFL_WEAK`,
else `flux == (int16_t)0xFFFF` → `TFL_STRONG`, else `TFL_READY`).
`dist`, `flux`, `temp` are the caller's variables, returned unmodified
when the loop aborts. -/
def getData {σ : Type} (W : TwoWire σ) (dist flux temp : Int) (addr : Nat)
    (st : DriverState) (bs : σ) : GDRes σ :=
  let st0 := { st with tfStatus := Status.TFL_READY }
  let r := getDataLoop W addr measRegs st0 bs
  if r.ok then
    let d := toInt16 (r.st.dataArray 0 + r.st.dataArray 1 * 256)
    let f := toInt16 (r.st.dataArray 2 + r.st.dataArray 3 * 256)
    let t := toInt16 (r.st.dataArray 4 + r.st.dataArray 5 * 256)
    if f < 100 then ⟨false, d, f, t, { r.st with tfStatus := Status.TFL_WEAK }, r.bus⟩
    else if f = toInt16 0xFFFF then
      ⟨false, d, f, t, { r.st with tfStatus := Status.TFL_STRONG }, r.bus⟩
    else ⟨true, d, f, t, { r.st with tfStatus := Status.TFL_READY }, r.bus⟩
  else ⟨false, dist, flux, temp, r.st, r.bus⟩

/-- Embedding of `TFLI2C::Get_Time`: read `TFL_TICK_LO` then
`TFL_TICK_HI` into the low and high byte of the caller's 16-bit variable
`tim`, failing fast on the first failing read. -/
def Get_Time {σ : Type} (W : TwoWire σ) (tim adr : Nat) (st : DriverState) (bs : σ) :
    ValRes σ :=
  let r := readReg W TFL_TICK_LO adr st bs
  if r.ok then
    let tim1 := tim / 256 * 256 + r.st.regReply
    let r2 := readReg W TFL_TICK_HI adr r.st r.bus
    if r2.ok then ⟨true, tim1 % 256 + r2.st.regReply * 256, r2.st, r2.bus⟩
    else ⟨false, tim1, r2.st, r2.bus⟩
  else ⟨false, tim, r.st, r.bus⟩

/-- Loop of `TFLI2C::Get_Prod_Code`: for each index `i` of the given
list, read register `0x10 + i` into `p_cod[i]`, aborting with `false` on
the first failing read. -/
def prodCodeLoop {σ : Type} (W : TwoWire σ) (adr : Nat) :
    List Nat → (Nat → Nat) → DriverState → σ → BufRes σ
  | [], p_cod, st, bs => ⟨true, p_cod, st, bs⟩
  | i :: rest, p_cod, st, bs =>
    let r := readReg W (0x10 + i) adr st bs
    if r.ok then prodCodeLoop W adr rest (updArr p_cod i r.st.regReply) r.st r.bus
    else ⟨false, p_cod, r.st, r.bus⟩

/-- Embedding of `TFLI2C::Get_Prod_Code`: fill the caller's 14-byte
buffer from the 14 consecutive registers starting at offset `0x10`. -/
def Get_Prod_Code {σ : Type} (W : TwoWire σ) (p_cod : Nat → Nat) (adr : Nat)
    (st : DriverState) (bs : σ) : BufRes σ :=
  prodCodeLoop W adr (List.range 14) p_cod st bs

/-- Loop of `TFLI2C::Get_Firmware_Version`: read register `0x0A + i` into
`p_ver[i]` for each index of the list, aborting on the first failure. -/
def firmwareLoop {σ : Type} (W : TwoWire σ) (adr : Nat) :
    List Nat → (Nat → Nat) → DriverState → σ → BufRes σ
  | [], p_ver, st, bs => ⟨true, p_ver, st, bs⟩
  | i :: rest, p_ver, st, bs =>
    let r := readReg W (0x0A + i) adr st bs
    if r.ok then firmwareLoop W adr rest (updArr p_ver i r.st.regReply) r.st r.bus
    else ⟨false, p_ver, r.st, r.bus⟩

/-- Embedding of `TFLI2C::Get_Firmware_Version`: fill the caller's 3-byte
buffer from the 3 consecutive registers starting at offset `0x0A`. -/
def Get_Firmware_Version {σ : Type} (W : TwoWire σ) (p_ver : Nat → Nat) (adr : Nat)
    (st : DriverState) (bs : σ) : BufRes σ :=
  firmwareLoop W adr (List.range 3) p_ver st bs

/-- Embedding of `TFLI2C::Save_Settings`: write 1 to the save-settings
command register. -/
def Save_Settings {σ : Type} (W : TwoWire σ) (adr : Nat) (st : DriverState) (bs : σ) :
    OpRes σ :=
  writeReg W TFL_SAVE_SETTINGS adr 1 st bs

/-- Embedding of `TFLI2C::Soft_Reset`: write 2 to the soft-reset command
register. -/
def Soft_Reset {σ : Type} (W : TwoWire σ) (adr : Nat) (st : DriverState) (bs : σ) :
    OpRes σ :=
  writeReg W TFL_SOFT_RESET adr 2 st bs

/-- Embedding of `TFLI2C::Set_I2C_Addr`: write the new device address to
the set-address command register. -/
def Set_I2C_Addr {σ : Type} (W : TwoWire σ) (adrNew adr : Nat) (st : DriverState) (bs : σ) :
    OpRes σ :=
  writeReg W TFL_SET_I2C_ADDR adr adrNew st bs

/-- Embedding of `TFLI2C::Set_Enable`: write 1 to the disable register. -/
def Set_Enable {σ : Type} (W : TwoWire σ) (adr : Nat) (st : DriverState) (bs : σ) :
    OpRes σ :=
  writeReg W TFL_DISABLE adr 1 st bs

/-- Embedding of `TFLI2C::Set_Disable`: write 0 to the disable register. -/
def Set_Disable {σ : Type} (W : TwoWire σ) (adr : Nat) (st : DriverState) (bs : σ) :
    OpRes σ :=
  writeReg W TFL_DISABLE adr 0 st bs

/-- Embedding of `TFLI2C::Set_Frame_Rate`: write the low byte of the
16-bit rate to `TFL_FPS_LO`, then (only if that write succeeded) the high
byte to `TFL_FPS_HI`. -/
def Set_Frame_Rate {σ : Type} (W : TwoWire σ) (frm adr : Nat) (st : DriverState) (bs : σ) :
    OpRes σ :=
  let r := writeReg W TFL_FPS_LO adr (frm % 256) st bs
  if r.ok then writeReg W TFL_FPS_HI adr (frm / 256 % 256) r.st r.bus
  else ⟨false, r.st, r.bus⟩

/-- Embedding of `TFLI2C::Get_Frame_Rate`: read `TFL_FPS_LO` then
`TFL_FPS_HI` into the low and high byte of the caller's 16-bit variable
`frm`, failing fast on the first failing read. -/
def Get_Frame_Rate {σ : Type} (W : TwoWire σ) (frm adr : Nat) (st : DriverState) (bs : σ) :
    ValRes σ :=
  let r := readReg W TFL_FPS_LO adr st bs
  if r.ok then
    let frm1 := frm / 256 * 256 + r.st.regReply
    let r2 := readReg W TFL_FPS_HI adr r.st r.bus
    if r2.ok then ⟨true, frm1 % 256 + r2.st.regReply * 256, r2.st, r2.bus⟩
    else ⟨false, frm1, r2.st, r2.bus⟩
  else ⟨false, frm, r.st, r.bus⟩

/-- Embedding of `TFLI2C::Hard_Reset`: write 1 to the hard-reset command
register. -/
def Hard_Reset {σ : Type} (W : TwoWire σ) (adr : Nat) (st : DriverState) (bs : σ) :
    OpRes σ :=
  writeReg W TFL_HARD_RESET adr 1 st bs

/-- Embedding of `TFLI2C::Set_Cont_Mode`: write 0 to the trigger-mode
register. -/
def Set_Cont_Mode {σ : Type} (W : TwoWire σ) (adr : Nat) (st : DriverState) (bs : σ) :
    OpRes σ :=
  writeReg W TFL_SET_TRIG_MODE adr 0 st bs

/-- Embedding of `TFLI2C::Set_Trig_Mode`: write 1 to the trigger-mode
register. -/
def Set_Trig_Mode {σ : Type} (W : TwoWire σ) (adr : Nat) (st : DriverState) (bs : σ) :
    OpRes σ :=
  writeReg W TFL_SET_TRIG_MODE adr 1 st bs

/-- Embedding of `TFLI2C::Set_Trigger`: write 1 to the trigger register. -/
def Set_Trigger {σ : Type} (W : TwoWire σ) (adr : Nat) (st : DriverState) (bs : σ) :
    OpRes σ :=
  writeReg W TFL_TRIGGER adr 1 st bs

/-- Replay oracle bus state: a list of pending transaction outcomes and a
log of the transactions performed so far. -/
structure Oracle where
  resps : List BusResp
  log : List Txn
  deriving DecidableEq

/-- Replay transport: each transaction consumes the next scripted outcome
and is appended to the log (an exhausted script fails). -/
def oracleWire : TwoWire Oracle where
  readTxn o addr reg :=
    match o.resps with
    | [] => (BusResp.rfail, ⟨[], o.log ++ [Txn.rd addr reg]⟩)
    | r :: rest => (r, ⟨rest, o.log ++ [Txn.rd addr reg]⟩)
  writeTxn o addr reg data :=
    match o.resps with
    | [] => (BusResp.wfail, ⟨[], o.log ++ [Txn.wr addr reg data]⟩)
    | r :: rest => (r, ⟨rest, o.log ++ [Txn.wr addr reg data]⟩)

/-- Register-file transport: every transaction succeeds, a write stores
its data byte in the addressed register, and a read returns the byte most
recently written to the addressed register. -/
def regFileWire : TwoWire (Nat → Nat) where
  readTxn f _addr reg := (BusResp.ok (f reg), f)
  writeTxn f _addr reg data := (BusResp.ok 0, updArr f reg (data % 256))

/-- Driver state with a clear status, zeroed reply and zeroed array. -/
def st0 : DriverState := ⟨Status.TFL_READY, 0, fun _ => 0⟩

/-- Driver state left over by an earlier weak-signal failure. -/
def stWeak : DriverState := ⟨Status.TFL_WEAK, 0, fun _ => 0⟩

/-- Oracle script for a `getData` run whose six reads all succeed with
bytes `0x00 0x00 0xFF 0xFF 0x00 0x00`, giving the flux register pair the
saturated pattern `0xFFFF`. -/
def fluxSatOracle : Oracle :=
  ⟨[BusResp.ok 0, BusResp.ok 0, BusResp.ok 255, BusResp.ok 255, BusResp.ok 0, BusResp.ok 0], []⟩

/-- Oracle script for a `getData` run whose six reads all succeed with
flux bytes `0x00 0x80`, i.e. flux pattern `0x8000`. -/
def flux8000Oracle : Oracle :=
  ⟨[BusResp.ok 0, BusResp.ok 0, BusResp.ok 0, BusResp.ok 128, BusResp.ok 0, BusResp.ok 0], []⟩

/-- Data array contents after a fully successful six-register read with
bytes `b0 .. b5`. -/
def gArr (a : Nat → Nat) (b0 b1 b2 b3 b4 b5 : Nat) : Nat → Nat :=
  updArr (updArr (updArr (updArr (updArr (updArr a 0 (b0 % 256)) 1 (b1 % 256))
    2 (b2 % 256)) 3 (b3 % 256)) 4 (b4 % 256)) 5 (b5 % 256)

/-- Transaction log after a fully successful six-register read. -/
def gLog (adr : Nat) (l : List Txn) : List Txn :=
  l ++ [Txn.rd adr 0] ++ [Txn.rd adr 1] ++ [Txn.rd adr 2] ++ [Txn.rd adr 3]
    ++ [Txn.rd adr 4] ++ [Txn.rd adr 5]

/-- C2: on a run of `getData` in which all six reads succeed and the flux
pattern is `0xFFFF`, the code reports failure but sets `TFL_WEAK`, not
`TFL_STRONG`: since `(int16_t)0xFFFF = -1 < 100`, the weak-signal branch
fires first and the strong-signal branch of `getData` is unreachable.
This exhibits the code's behaviour at the claim's failing input. -/
theorem C2_flux_saturation_behavior :
    (getData oracleWire 0 0 0 TFL_DEF_ADR st0 fluxSatOracle).flux = toInt16 0xFFFF ∧
    (getData oracleWire 0 0 0 TFL_DEF_ADR st0 fluxSatOracle).ok = false ∧
    (getData oracleWire 0 0 0 TFL_DEF_ADR st0 fluxSatOracle).st.tfStatus = Status.TFL_WEAK ∧
    (getData oracleWire 0 0 0 TFL_DEF_ADR st0 fluxSatOracle).st.tfStatus ≠ Status.TFL_STRONG := by
  exact ⟨rfl, rfl, rfl, by decide⟩

/-- C1 counterexample: a `Save_Settings` call that returns a definitive
success (`true`) leaves `tfStatus` holding the stale `TFL_WEAK` value of
an earlier failed operation, so the status slot does not reflect the
outcome of the most recently completed operation. -/
theorem C1_stale_status_counterexample :
    (Save_Settings oracleWire TFL_DEF_ADR stWeak ⟨[BusResp.ok 0], []⟩).ok = true ∧
    (Save_Settings oracleWire TFL_DEF_ADR stWeak ⟨[BusResp.ok 0], []⟩).st.tfStatus
      = Status.TFL_WEAK := ⟨rfl, rfl⟩

/-- Status outcome of the `getData` register loop over an arbitrary
transport: on success the loop leaves `tfStatus` unchanged (each
successful `readReg` preserves it), and on failure the loop leaves the
failing `readReg`'s error code. -/
lemma getDataLoop_status {σ : Type} (W : TwoWire σ) (adr : Nat) :
    ∀ (regs : List Nat) (st : DriverState) (bs : σ),
      ((getDataLoop W adr regs st bs).ok = true ∧
        (getDataLoop W adr regs st bs).st.tfStatus = st.tfStatus) ∨
      ((getDataLoop W adr regs st bs).ok = false ∧
        ((getDataLoop W adr regs st bs).st.tfStatus = Status.TFL_I2CWRITE ∨
          (getDataLoop W adr regs st bs).st.tfStatus = Status.TFL_I2CREAD)) := by
  intro regs
  induction regs with
  | nil => intro st bs; exact Or.inl ⟨rfl, rfl⟩
  | cons reg rest ih =>
    intro st bs
    cases hA : W.readTxn bs adr reg with
    | mk resp bs' =>
      cases resp
      case wfail => simp [getDataLoop, readReg, hA]
      case rfail => simp [getDataLoop, readReg, hA]
      case ok b =>
        have h := ih ⟨st.tfStatus, b % 256, updArr st.dataArray reg (b % 256)⟩ bs'
        simpa [getDataLoop, readReg, hA] using h

/-- Status outcome of `getData` over an arbitrary transport: `tfStatus`
is set on every return — `TFL_READY` when the call succeeds, and one of
the codes written by that call (`TFL_WEAK`, `TFL_STRONG`,
`TFL_I2CWRITE`, `TFL_I2CREAD`) when it fails. -/
lemma getData_status_outcome {σ : Type} (W : TwoWire σ) (dist flux temp : Int) (adr : Nat)
    (st : DriverState) (bs : σ) :
    ((getData W dist flux temp adr st bs).ok = true →
      (getData W dist flux temp adr st bs).st.tfStatus = Status.TFL_READY) ∧
    ((getData W dist flux temp adr st bs).ok = false →
      ((getData W dist flux temp adr st bs).st.tfStatus = Status.TFL_WEAK ∨
        (getData W dist flux temp adr st bs).st.tfStatus = Status.TFL_STRONG ∨
        (getData W dist flux temp adr st bs).st.tfStatus = Status.TFL_I2CWRITE ∨
        (getData W dist flux temp adr st bs).st.tfStatus = Status.TFL_I2CREAD)) := by
  rcases getDataLoop_status W adr measRegs { st with tfStatus := Status.TFL_READY } bs with
    ⟨hok, hst⟩ | ⟨hok, hst⟩
  · simp only [getData, hok, if_true]
    split
    · exact ⟨fun h => by simp at h, fun _ => Or.inl rfl⟩
    · split
      · exact ⟨fun h => by simp at h, fun _ => Or.inr (Or.inl rfl)⟩
      · exact ⟨fun _ => rfl, fun h => by simp at h⟩
  · simp only [getData, hok, Bool.false_eq_true, if_false]
    refine ⟨fun h => by simp at h, fun _ => ?_⟩
    rcases hst with h | h
    · exact Or.inr (Or.inr (Or.inl h))
    · exact Or.inr (Or.inr (Or.inr h))

/-- C1 (amended): every failing call to the register primitives sets
`tfStatus` to the error of the failing step (`TFL_I2CWRITE` for a failed
write transaction, `TFL_I2CWRITE` or `TFL_I2CREAD` for a failed read),
and the commands built from them behave likewise (shown for
`Save_Settings`); `getData` sets `tfStatus` on every return — `TFL_READY`
on success and one of the codes written by that call on failure; but on
success `readReg`, `writeReg` and the commands built from them leave
`tfStatus` unchanged, so a successful call can keep a stale value. -/
theorem C1_status_outcome_amended {σ : Type} (W : TwoWire σ) (n a d : Nat)
    (dist flux temp : Int) (st : DriverState) (bs : σ) :
    ((writeReg W n a d st bs).ok = false →
      (writeReg W n a d st bs).st.tfStatus = Status.TFL_I2CWRITE) ∧
    ((writeReg W n a d st bs).ok = true →
      (writeReg W n a d st bs).st.tfStatus = st.tfStatus) ∧
    ((readReg W n a st bs).ok = false →
      ((readReg W n a st bs).st.tfStatus = Status.TFL_I2CWRITE ∨
        (readReg W n a st bs).st.tfStatus = Status.TFL_I2CREAD)) ∧
    ((readReg W n a st bs).ok = true →
      (readReg W n a st bs).st.tfStatus = st.tfStatus) ∧
    ((Save_Settings W a st bs).ok = false →
      (Save_Settings W a st bs).st.tfStatus = Status.TFL_I2CWRITE) ∧
    ((Save_Settings W a st bs).ok = true →
      (Save_Settings W a st bs).st.tfStatus = st.tfStatus) ∧
    ((getData W dist flux temp a st bs).ok = true →
      (getData W dist flux temp a st bs).st.tfStatus = Status.TFL_READY) ∧
    ((getData W dist flux temp a st bs).ok = false →
      ((getData W dist flux temp a st bs).st.tfStatus = Status.TFL_WEAK ∨
        (getData W dist flux temp a st bs).st.tfStatus = Status.TFL_STRONG ∨
        (getData W dist flux temp a st bs).st.tfStatus = Status.TFL_I2CWRITE ∨
        (getData W dist flux temp a st bs).st.tfStatus = Status.TFL_I2CREAD)) := by
  have hw : ∀ (n d : Nat) (bs : σ),
      ((writeReg W n a d st bs).ok = false →
        (writeReg W n a d st bs).st.tfStatus = Status.TFL_I2CWRITE) ∧
      ((writeReg W n a d st bs).ok = true →
        (writeReg W n a d st bs).st.tfStatus = st.tfStatus) := by
    intro n d bs
    cases hA : W.writeTxn bs a n d with
    | mk resp bs' => cases resp <;> simp [writeReg, hA]
  have hr :
      ((readReg W n a st bs).ok = false →
        ((readReg W n a st bs).st.tfStatus = Status.TFL_I2CWRITE ∨
          (readReg W n a st bs).st.tfStatus = Status.TFL_I2CREAD)) ∧
      ((readReg W n a st bs).ok = true →
        (readReg W n a st bs).st.tfStatus = st.tfStatus) := by
    cases hA : W.readTxn bs a n with
    | mk resp bs' => cases resp <;> simp [readReg, hA]
  exact ⟨(hw n d bs).1, (hw n d bs).2, hr.1, hr.2,
    (hw TFL_SAVE_SETTINGS 1 bs).1, (hw TFL_SAVE_SETTINGS 1 bs).2,
    (getData_status_outcome W dist flux temp a st bs).1,
    (getData_status_outcome W dist flux temp a st bs).2⟩

/-- C1 witness: the amended statement applied at concrete runs, one per
discharged hypothesis. -/
theorem C1_status_outcome_witness :
    (writeReg oracleWire 0x20 0x10 1 st0 (⟨[BusResp.wfail], []⟩ : Oracle)).st.tfStatus
      = Status.TFL_I2CWRITE ∧
    (writeReg oracleWire 0x20 0x10 1 stWeak (⟨[BusResp.ok 0], []⟩ : Oracle)).st.tfStatus
      = stWeak.tfStatus ∧
    ((readReg oracleWire 0x26 0x10 st0 (⟨[BusResp.rfail], []⟩ : Oracle)).st.tfStatus
        = Status.TFL_I2CWRITE ∨
      (readReg oracleWire 0x26 0x10 st0 (⟨[BusResp.rfail], []⟩ : Oracle)).st.tfStatus
        = Status.TFL_I2CREAD) ∧
    (readReg oracleWire 0x26 0x10 stWeak (⟨[BusResp.ok 5], []⟩ : Oracle)).st.tfStatus
      = stWeak.tfStatus ∧
    (Save_Settings oracleWire 0x10 stWeak (⟨[BusResp.ok 0], []⟩ : Oracle)).st.tfStatus
      = stWeak.tfStatus ∧
    (getData oracleWire 0 0 0 0x10 stWeak
        (⟨[BusResp.ok 0, BusResp.ok 0, BusResp.ok 200, BusResp.ok 0,
          BusResp.ok 0, BusResp.ok 0], []⟩ : Oracle)).st.tfStatus = Status.TFL_READY ∧
    ((getData oracleWire 0 0 0 0x10 st0 (⟨[BusResp.wfail], []⟩ : Oracle)).st.tfStatus
        = Status.TFL_WEAK ∨
      (getData oracleWire 0 0 0 0x10 st0 (⟨[BusResp.wfail], []⟩ : Oracle)).st.tfStatus
        = Status.TFL_STRONG ∨
      (getData oracleWire 0 0 0 0x10 st0 (⟨[BusResp.wfail], []⟩ : Oracle)).st.tfStatus
        = Status.TFL_I2CWRITE ∨
      (getData oracleWire 0 0 0 0x10 st0 (⟨[BusResp.wfail], []⟩ : Oracle)).st.tfStatus
        = Status.TFL_I2CREAD) := by
  refine ⟨?_, ?_, ?_, ?_, ?_, ?_, ?_⟩
  · exact
      (C1_status_outcome_amended oracleWire 0x20 0x10 1 0 0 0 st0 ⟨[BusResp.wfail], []⟩).1 rfl
  · exact
      (C1_status_outcome_amended oracleWire 0x20 0x10 1 0 0 0 stWeak ⟨[BusResp.ok 0], []⟩).2.1 rfl
  · exact
      (C1_status_outcome_amended oracleWire 0x26 0x10 0 0 0 0 st0 ⟨[BusResp.rfail], []⟩).2.2.1 rfl
  · exact
      (C1_status_outcome_amended oracleWire 0x26 0x10 0 0 0 0 stWeak
        ⟨[BusResp.ok 5], []⟩).2.2.2.1 rfl
  · exact
      (C1_status_outcome_amended oracleWire 0x20 0x10 1 0 0 0 stWeak
        ⟨[BusResp.ok 0], []⟩).2.2.2.2.2.1 rfl
  · exact
      (C1_status_outcome_amended oracleWire 0x20 0x10 1 0 0 0 stWeak
        ⟨[BusResp.ok 0, BusResp.ok 0, BusResp.ok 200, BusResp.ok 0,
          BusResp.ok 0, BusResp.ok 0], []⟩).2.2.2.2.2.2.1 rfl
  · exact
      (C1_status_outcome_amended oracleWire 0x20 0x10 1 0 0 0 st0
        ⟨[BusResp.wfail], []⟩).2.2.2.2.2.2.2 rfl

/-- C10: a successful `readReg` or `writeReg` leaves the status slot
`tfStatus` unchanged (it is written only on the failure branches), and
consequently the explicit commands built solely from them —
`Save_Settings`, `Soft_Reset` and `Set_Frame_Rate` — leave the status
slot at its prior value when they return success. -/
theorem C10_success_preserves_status {σ : Type} (W : TwoWire σ) (n a d frm : Nat)
    (st : DriverState) (bs : σ) :
    ((readReg W n a st bs).ok = true →
      (readReg W n a st bs).st.tfStatus = st.tfStatus) ∧
    ((writeReg W n a d st bs).ok = true →
      (writeReg W n a d st bs).st.tfStatus = st.tfStatus) ∧
    ((Save_Settings W a st bs).ok = true →
      (Save_Settings W a st bs).st.tfStatus = st.tfStatus) ∧
    ((Soft_Reset W a st bs).ok = true →
      (Soft_Reset W a st bs).st.tfStatus = st.tfStatus) ∧
    ((Set_Frame_Rate W frm a st bs).ok = true →
      (Set_Frame_Rate W frm a st bs).st.tfStatus = st.tfStatus) := by
  have hw : ∀ (n d : Nat) (st : DriverState) (bs : σ),
      (writeReg W n a d st bs).ok = true → (writeReg W n a d st bs).st = st := by
    intro n d st bs
    cases hA : W.writeTxn bs a n d with
    | mk resp bs' => cases resp <;> simp [writeReg, hA]
  have hr : (readReg W n a st bs).ok = true →
      (readReg W n a st bs).st.tfStatus = st.tfStatus := by
    cases hA : W.readTxn bs a n with
    | mk resp bs' => cases resp <;> simp [readReg, hA]
  refine ⟨hr, fun h => by rw [hw n d st bs h],
    fun h => by unfold Save_Settings at h ⊢; rw [hw _ _ st bs h],
    fun h => by unfold Soft_Reset at h ⊢; rw [hw _ _ st bs h], ?_⟩
  intro h
  unfold Set_Frame_Rate at h ⊢
  cases hok : (writeReg W TFL_FPS_LO a (frm % 256) st bs).ok
  · simp [hok] at h
  · simp only [hok, if_true] at h ⊢
    rw [hw _ _ st bs hok] at h ⊢
    rw [hw _ _ st _ h]

/-- C10 witness: the frame statement applied at concrete successful
runs. -/
theorem C10_success_preserves_status_witness :
    (readReg oracleWire 0x26 0x10 stWeak (⟨[BusResp.ok 5], []⟩ : Oracle)).st.tfStatus
      = stWeak.tfStatus ∧
    (Save_Settings oracleWire 0x10 stWeak (⟨[BusResp.ok 0], []⟩ : Oracle)).st.tfStatus
      = stWeak.tfStatus ∧
    (Set_Frame_Rate oracleWire 100 0x10 stWeak
        (⟨[BusResp.ok 0, BusResp.ok 0], []⟩ : Oracle)).st.tfStatus = stWeak.tfStatus := by
  refine ⟨?_, ?_, ?_⟩
  · exact
      (C10_success_preserves_status oracleWire 0x26 0x10 0 100 stWeak ⟨[BusResp.ok 5], []⟩).1 rfl
  · exact
      (C10_success_preserves_status oracleWire 0x26 0x10 0 100 stWeak
        ⟨[BusResp.ok 0], []⟩).2.2.1 rfl
  · exact
      (C10_success_preserves_status oracleWire 0x26 0x10 0 100 stWeak
        ⟨[BusResp.ok 0, BusResp.ok 0], []⟩).2.2.2.2 rfl

/-- Unfolding of one successful step of the `getData` register loop on
the replay oracle. -/
lemma getDataLoop_cons_ok (adr reg : Nat) (tail : List Nat) (b : Nat)
    (resps : List BusResp) (l : List Txn) (st : DriverState) :
    getDataLoop oracleWire adr (reg :: tail) st ⟨BusResp.ok b :: resps, l⟩ =
      getDataLoop oracleWire adr tail
        ⟨st.tfStatus, b % 256, updArr st.dataArray reg (b % 256)⟩
        ⟨resps, l ++ [Txn.rd adr reg]⟩ := rfl

/-- Unfolding of a `getData` loop step whose transaction ends with a
write error. -/
lemma getDataLoop_cons_wfail (adr reg : Nat) (tail : List Nat)
    (resps : List BusResp) (l : List Txn) (st : DriverState) :
    getDataLoop oracleWire adr (reg :: tail) st ⟨BusResp.wfail :: resps, l⟩ =
      ⟨false, { st with tfStatus := Status.TFL_I2CWRITE },
        ⟨resps, l ++ [Txn.rd adr reg]⟩⟩ := rfl

/-- Unfolding of a `getData` loop step whose transaction ends with a
read-availability error. -/
lemma getDataLoop_cons_rfail (adr reg : Nat) (tail : List Nat)
    (resps : List BusResp) (l : List Txn) (st : DriverState) :
    getDataLoop oracleWire adr (reg :: tail) st ⟨BusResp.rfail :: resps, l⟩ =
      ⟨false, { st with tfStatus := Status.TFL_I2CREAD },
        ⟨resps, l ++ [Txn.rd adr reg]⟩⟩ := rfl

/-- Fail-fast behaviour of the `getData` register loop: when the reads of
the registers in `is₁` succeed and the read of `i` fails with `fr`, the
loop stops with result `false`, the status of the failing step, and a log
of exactly the reads up to and including `i`. -/
lemma getDataLoop_fail (adr : Nat) (fr : BusResp)
    (hfr : fr = BusResp.wfail ∨ fr = BusResp.rfail) (rest : List BusResp) :
    ∀ (is₁ : List Nat) (i : Nat) (is₂ : List Nat) (bts : List Nat),
      bts.length = is₁.length → ∀ (st : DriverState) (l : List Txn),
    (getDataLoop oracleWire adr (is₁ ++ i :: is₂) st ⟨bts.map BusResp.ok ++ fr :: rest, l⟩).ok
        = false ∧
    (getDataLoop oracleWire adr (is₁ ++ i :: is₂) st
          ⟨bts.map BusResp.ok ++ fr :: rest, l⟩).st.tfStatus
        = (if fr = BusResp.wfail then Status.TFL_I2CWRITE else Status.TFL_I2CREAD) ∧
    (getDataLoop oracleWire adr (is₁ ++ i :: is₂) st
          ⟨bts.map BusResp.ok ++ fr :: rest, l⟩).bus.log
        = l ++ (is₁ ++ [i]).map (Txn.rd adr) := by
  intro is₁
  induction is₁ with
  | nil =>
    intro i is₂ bts hlen st l
    cases bts with
    | cons bb bts' => simp at hlen
    | nil =>
      rcases hfr with rfl | rfl
      · simp [getDataLoop_cons_wfail]
      · simp [getDataLoop_cons_rfail]
  | cons a t ih =>
    intro i is₂ bts hlen st l
    cases bts with
    | nil => simp at hlen
    | cons bb bts' =>
      have hlen' : bts'.length = t.length := by simpa using hlen
      rw [List.cons_append, List.map_cons, List.cons_append, getDataLoop_cons_ok]
      refine ⟨(ih i is₂ bts' hlen' _ _).1, (ih i is₂ bts' hlen' _ _).2.1, ?_⟩
      rw [(ih i is₂ bts' hlen' _ _).2.2]
      simp

/-- Early exit of `getData` when its register loop fails: the caller's
three output variables are returned unmodified. -/
lemma getData_of_loop_fail (dist flux temp : Int) (adr : Nat) (st : DriverState) (O : Oracle)
    (h : (getDataLoop oracleWire adr measRegs
        { st with tfStatus := Status.TFL_READY } O).ok = false) :
    getData oracleWire dist flux temp adr st O =
      ⟨false, dist, flux, temp,
        (getDataLoop oracleWire adr measRegs
          { st with tfStatus := Status.TFL_READY } O).st,
        (getDataLoop oracleWire adr measRegs
          { st with tfStatus := Status.TFL_READY } O).bus⟩ := by
  simp only [getData, h, Bool.false_eq_true, if_false]

/-- C5: when the read of register `k` in the six-register sequence of
`getData` fails (after `k` successful reads delivering the bytes `bts`),
`getData` returns `false` immediately, leaves the caller's `dist`,
`flux`, `temp` variables unmodified, leaves `tfStatus` as set by the
failing `readReg` call, and the transaction log shows exactly the `k + 1`
reads of registers `0 .. k` — none of the remaining reads is attempted. -/
theorem C5_read_failure_aborts (k : Nat) (hk : k < 6) (bts : List Nat) (hlen : bts.length = k)
    (fr : BusResp) (hfr : fr = BusResp.wfail ∨ fr = BusResp.rfail) (rest : List BusResp)
    (dist flux temp : Int) (adr : Nat) (st : DriverState) :
    (getData oracleWire dist flux temp adr st ⟨bts.map BusResp.ok ++ fr :: rest, []⟩).ok
        = false ∧
    (getData oracleWire dist flux temp adr st ⟨bts.map BusResp.ok ++ fr :: rest, []⟩).dist
        = dist ∧
    (getData oracleWire dist flux temp adr st ⟨bts.map BusResp.ok ++ fr :: rest, []⟩).flux
        = flux ∧
    (getData oracleWire dist flux temp adr st ⟨bts.map BusResp.ok ++ fr :: rest, []⟩).temp
        = temp ∧
    (getData oracleWire dist flux temp adr st
          ⟨bts.map BusResp.ok ++ fr :: rest, []⟩).st.tfStatus
        = (if fr = BusResp.wfail then Status.TFL_I2CWRITE else Status.TFL_I2CREAD) ∧
    (getData oracleWire dist flux temp adr st ⟨bts.map BusResp.ok ++ fr :: rest, []⟩).bus.log
        = (List.range (k + 1)).map (Txn.rd adr) := by
  have hsplit : measRegs = List.range k ++ k :: List.range' (k + 1) (5 - k) := by
    interval_cases k <;> rfl
  have h := getDataLoop_fail adr fr hfr rest (List.range k) k (List.range' (k + 1) (5 - k))
    bts (by simp [hlen]) { st with tfStatus := Status.TFL_READY } []
  rw [← hsplit] at h
  rw [← List.range_succ, List.nil_append] at h
  rw [getData_of_loop_fail dist flux temp adr st _ h.1]
  exact ⟨rfl, rfl, rfl, rfl, h.2.1, h.2.2⟩

/-- C5 witness: the theorem applied at a failure on the third read. -/
theorem C5_read_failure_aborts_witness :
    (getData oracleWire 3 4 5 TFL_DEF_ADR st0
        ⟨[BusResp.ok 7, BusResp.ok 8, BusResp.rfail], []⟩).ok = false ∧
    (getData oracleWire 3 4 5 TFL_DEF_ADR st0
        ⟨[BusResp.ok 7, BusResp.ok 8, BusResp.rfail], []⟩).dist = 3 ∧
    (getData oracleWire 3 4 5 TFL_DEF_ADR st0
        ⟨[BusResp.ok 7, BusResp.ok 8, BusResp.rfail], []⟩).flux = 4 ∧
    (getData oracleWire 3 4 5 TFL_DEF_ADR st0
        ⟨[BusResp.ok 7, BusResp.ok 8, BusResp.rfail], []⟩).temp = 5 ∧
    (getData oracleWire 3 4 5 TFL_DEF_ADR st0
        ⟨[BusResp.ok 7, BusResp.ok 8, BusResp.rfail], []⟩).st.tfStatus
      = Status.TFL_I2CREAD ∧
    (getData oracleWire 3 4 5 TFL_DEF_ADR st0
        ⟨[BusResp.ok 7, BusResp.ok 8, BusResp.rfail], []⟩).bus.log
      = [Txn.rd TFL_DEF_ADR 0, Txn.rd TFL_DEF_ADR 1, Txn.rd TFL_DEF_ADR 2] := by
  have h := C5_read_failure_aborts 2 (by decide) [7, 8] rfl BusResp.rfail (Or.inr rfl) []
    3 4 5 TFL_DEF_ADR st0
  exact ⟨h.1, h.2.1, h.2.2.1, h.2.2.2.1, h.2.2.2.2.1, h.2.2.2.2.2⟩

/-- Unfolding of one successful step of the `Get_Prod_Code` loop on the
replay oracle. -/
lemma prodCodeLoop_cons_ok (adr i : Nat) (tail : List Nat) (b : Nat)
    (resps : List BusResp) (l : List Txn) (buf : Nat → Nat) (st : DriverState) :
    prodCodeLoop oracleWire adr (i :: tail) buf st ⟨BusResp.ok b :: resps, l⟩ =
      prodCodeLoop oracleWire adr tail (updArr buf i (b % 256))
        { st with regReply := b % 256 } ⟨resps, l ++ [Txn.rd adr (0x10 + i)]⟩ := rfl

/-- Unfolding of a `Get_Prod_Code` loop step whose transaction ends with
a read-availability error. -/
lemma prodCodeLoop_cons_rfail (adr i : Nat) (tail : List Nat)
    (resps : List BusResp) (l : List Txn) (buf : Nat → Nat) (st : DriverState) :
    prodCodeLoop oracleWire adr (i :: tail) buf st ⟨BusResp.rfail :: resps, l⟩ =
      ⟨false, buf, { st with tfStatus := Status.TFL_I2CREAD },
        ⟨resps, l ++ [Txn.rd adr (0x10 + i)]⟩⟩ := rfl

/-- Fail-fast behaviour of the `Get_Prod_Code` loop: when the steps of
`is₁` succeed and step `i` fails with a read-availability error, the loop
stops with `false` and status `TFL_I2CREAD`, logs exactly the reads up to
and including step `i`, and writes no buffer index outside `is₁`. -/
lemma prodCodeLoop_fail (adr : Nat) (rest : List BusResp) :
    ∀ (is₁ : List Nat) (i : Nat) (is₂ : List Nat) (bts : List Nat),
      bts.length = is₁.length → ∀ (buf : Nat → Nat) (st : DriverState) (l : List Txn),
    (prodCodeLoop oracleWire adr (is₁ ++ i :: is₂) buf st
        ⟨bts.map BusResp.ok ++ BusResp.rfail :: rest, l⟩).ok = false ∧
    (prodCodeLoop oracleWire adr (is₁ ++ i :: is₂) buf st
        ⟨bts.map BusResp.ok ++ BusResp.rfail :: rest, l⟩).st.tfStatus = Status.TFL_I2CREAD ∧
    (prodCodeLoop oracleWire adr (is₁ ++ i :: is₂) buf st
        ⟨bts.map BusResp.ok ++ BusResp.rfail :: rest, l⟩).bus.log
      = l ++ (is₁ ++ [i]).map (fun j => Txn.rd adr (0x10 + j)) ∧
    ∀ j, j ∉ is₁ →
      (prodCodeLoop oracleWire adr (is₁ ++ i :: is₂) buf st
        ⟨bts.map BusResp.ok ++ BusResp.rfail :: rest, l⟩).buf j = buf j := by
  intro is₁
  induction is₁ with
  | nil =>
    intro i is₂ bts hlen buf st l
    cases bts with
    | cons bb bts' => simp at hlen
    | nil => simp [prodCodeLoop_cons_rfail]
  | cons a t ih =>
    intro i is₂ bts hlen buf st l
    cases bts with
    | nil => simp at hlen
    | cons bb bts' =>
      have hlen' : bts'.length = t.length := by simpa using hlen
      rw [List.cons_append, List.map_cons, List.cons_append, prodCodeLoop_cons_ok]
      refine ⟨(ih i is₂ bts' hlen' _ _ _).1, (ih i is₂ bts' hlen' _ _ _).2.1, ?_, ?_⟩
      · rw [(ih i is₂ bts' hlen' _ _ _).2.2.1]
        simp
      · intro j hj
        rw [List.mem_cons] at hj
        push_neg at hj
        rw [(ih i is₂ bts' hlen' _ _ _).2.2.2 j hj.2]
        simp [updArr, hj.1]

/-- C6: when step `p` (0-indexed; step `p + 1` of 14 in the claim's
1-indexed counting) of the `Get_Prod_Code` read sequence fails with a
read-availability failure after `p` successful reads, the operation
returns `false`, the status slot equals `TFL_I2CREAD`, the transaction
log shows exactly the `p + 1` reads of registers `0x10 .. 0x10 + p` (the
remaining `14 - (p + 1)` reads are not attempted), and every buffer
position at index `p` or beyond is left unmodified. -/
theorem C6_prod_code_failure_aborts (p : Nat) (hp : p < 14) (bts : List Nat)
    (hlen : bts.length = p) (rest : List BusResp) (buf : Nat → Nat) (adr : Nat)
    (st : DriverState) :
    (Get_Prod_Code oracleWire buf adr st
        ⟨bts.map BusResp.ok ++ BusResp.rfail :: rest, []⟩).ok = false ∧
    (Get_Prod_Code oracleWire buf adr st
        ⟨bts.map BusResp.ok ++ BusResp.rfail :: rest, []⟩).st.tfStatus = Status.TFL_I2CREAD ∧
    (Get_Prod_Code oracleWire buf adr st
        ⟨bts.map BusResp.ok ++ BusResp.rfail :: rest, []⟩).bus.log
      = (List.range (p + 1)).map (fun j => Txn.rd adr (0x10 + j)) ∧
    ∀ j, p ≤ j →
      (Get_Prod_Code oracleWire buf adr st
        ⟨bts.map BusResp.ok ++ BusResp.rfail :: rest, []⟩).buf j = buf j := by
  have hsplit : List.range 14 = List.range p ++ p :: List.range' (p + 1) (13 - p) := by
    interval_cases p <;> rfl
  have h := prodCodeLoop_fail adr rest (List.range p) p (List.range' (p + 1) (13 - p))
    bts (by simp [hlen]) buf st []
  rw [← hsplit] at h
  rw [← List.range_succ, List.nil_append] at h
  unfold Get_Prod_Code
  refine ⟨h.1, h.2.1, h.2.2.1, ?_⟩
  intro j hj
  refine h.2.2.2 j ?_
  simp only [List.mem_range]
  omega

/-- C6 witness: the theorem applied at a failure on the fifth read (byte
5 of 14 in the claim's example), with an untouched cell inspected. -/
theorem C6_prod_code_failure_aborts_witness :
    (Get_Prod_Code oracleWire (fun _ => 9) TFL_DEF_ADR st0
        ⟨[BusResp.ok 1, BusResp.ok 2, BusResp.ok 3, BusResp.ok 4, BusResp.rfail], []⟩).ok
      = false ∧
    (Get_Prod_Code oracleWire (fun _ => 9) TFL_DEF_ADR st0
        ⟨[BusResp.ok 1, BusResp.ok 2, BusResp.ok 3, BusResp.ok 4,
          BusResp.rfail], []⟩).st.tfStatus = Status.TFL_I2CREAD ∧
    (Get_Prod_Code oracleWire (fun _ => 9) TFL_DEF_ADR st0
        ⟨[BusResp.ok 1, BusResp.ok 2, BusResp.ok 3, BusResp.ok 4, BusResp.rfail], []⟩).buf 13
      = 9 := by
  have h := C6_prod_code_failure_aborts 4 (by decide) [1, 2, 3, 4] rfl [] (fun _ => 9)
    TFL_DEF_ADR st0
  exact ⟨h.1, h.2.1, h.2.2.2 13 (by decide)⟩

/-- C7: `Set_Frame_Rate` performs two separate register writes, the low
byte to `TFL_FPS_LO` first and then the high byte to `TFL_FPS_HI`; on a
run whose low-byte write fails the operation returns `false` with status
`TFL_I2CWRITE` and the log shows that the high-byte write was never
attempted, while on a successful run the log shows the two writes in
low-then-high order. -/
theorem C7_frame_rate_write_order (frm adr : Nat) (st : DriverState)
    (rest rest2 : List BusResp) (l : List Txn) (c1 c2 : Nat) :
    (Set_Frame_Rate oracleWire frm adr st ⟨BusResp.wfail :: rest, l⟩).ok = false ∧
    (Set_Frame_Rate oracleWire frm adr st ⟨BusResp.wfail :: rest, l⟩).st.tfStatus
        = Status.TFL_I2CWRITE ∧
    (Set_Frame_Rate oracleWire frm adr st ⟨BusResp.wfail :: rest, l⟩).bus.log
        = l ++ [Txn.wr adr TFL_FPS_LO (frm % 256)] ∧
    (Set_Frame_Rate oracleWire frm adr st ⟨BusResp.ok c1 :: BusResp.ok c2 :: rest2, l⟩).ok
        = true ∧
    (Set_Frame_Rate oracleWire frm adr st ⟨BusResp.ok c1 :: BusResp.ok c2 :: rest2, l⟩).bus.log
        = l ++ [Txn.wr adr TFL_FPS_LO (frm % 256), Txn.wr adr TFL_FPS_HI (frm / 256 % 256)] := by
  refine ⟨rfl, rfl, rfl, rfl, ?_⟩
  show (l ++ [Txn.wr adr TFL_FPS_LO (frm % 256)]) ++ [Txn.wr adr TFL_FPS_HI (frm / 256 % 256)]
      = l ++ [Txn.wr adr TFL_FPS_LO (frm % 256), Txn.wr adr TFL_FPS_HI (frm / 256 % 256)]
  simp

/-- C8: on a transport that returns from each register the byte most
recently written to it, a successful `Set_Frame_Rate x` followed by a
successful `Get_Frame_Rate` yields `x`, for every 16-bit `x`. -/
theorem C8_frame_rate_round_trip (x : Nat) (hx : x < 65536) (frm0 adr : Nat)
    (st : DriverState) (regs : Nat → Nat) :
    (Set_Frame_Rate regFileWire x adr st regs).ok = true ∧
    (Get_Frame_Rate regFileWire frm0 adr (Set_Frame_Rate regFileWire x adr st regs).st
        (Set_Frame_Rate regFileWire x adr st regs).bus).ok = true ∧
    (Get_Frame_Rate regFileWire frm0 adr (Set_Frame_Rate regFileWire x adr st regs).st
        (Set_Frame_Rate regFileWire x adr st regs).bus).val = x := by
  refine ⟨rfl, rfl, ?_⟩
  show ((frm0 / 256 * 256 + (x % 256 % 256) % 256) % 256 + ((x / 256 % 256) % 256) % 256 * 256)
      = x
  omega

/-- C8 witness: the round trip at the representative value 65535. -/
theorem C8_frame_rate_round_trip_witness :
    (Set_Frame_Rate regFileWire 65535 TFL_DEF_ADR st0 (fun _ => 0)).ok = true ∧
    (Get_Frame_Rate regFileWire 0 TFL_DEF_ADR
        (Set_Frame_Rate regFileWire 65535 TFL_DEF_ADR st0 (fun _ => 0)).st
        (Set_Frame_Rate regFileWire 65535 TFL_DEF_ADR st0 (fun _ => 0)).bus).ok = true ∧
    (Get_Frame_Rate regFileWire 0 TFL_DEF_ADR
        (Set_Frame_Rate regFileWire 65535 TFL_DEF_ADR st0 (fun _ => 0)).st
        (Set_Frame_Rate regFileWire 65535 TFL_DEF_ADR st0 (fun _ => 0)).bus).val = 65535 :=
  C8_frame_rate_round_trip 65535 (by decide) 0 TFL_DEF_ADR st0 (fun _ => 0)

/-- Normal form of a `getData` run on the replay oracle whose six reads
all succeed with bytes `b0 .. b5`. -/
lemma getData_sixOk (b0 b1 b2 b3 b4 b5 : Nat) (dist flux temp : Int) (adr : Nat)
    (st : DriverState) (l : List Txn) :
    getData oracleWire dist flux temp adr st
        ⟨[BusResp.ok b0, BusResp.ok b1, BusResp.ok b2, BusResp.ok b3,
          BusResp.ok b4, BusResp.ok b5], l⟩ =
      (if toInt16 (b2 % 256 + b3 % 256 * 256) < 100 then
        ⟨false, toInt16 (b0 % 256 + b1 % 256 * 256), toInt16 (b2 % 256 + b3 % 256 * 256),
          toInt16 (b4 % 256 + b5 % 256 * 256),
          ⟨Status.TFL_WEAK, b5 % 256, gArr st.dataArray b0 b1 b2 b3 b4 b5⟩,
          ⟨[], gLog adr l⟩⟩
      else if toInt16 (b2 % 256 + b3 % 256 * 256) = toInt16 65535 then
        ⟨false, toInt16 (b0 % 256 + b1 % 256 * 256), toInt16 (b2 % 256 + b3 % 256 * 256),
          toInt16 (b4 % 256 + b5 % 256 * 256),
          ⟨Status.TFL_STRONG, b5 % 256, gArr st.dataArray b0 b1 b2 b3 b4 b5⟩,
          ⟨[], gLog adr l⟩⟩
      else
        ⟨true, toInt16 (b0 % 256 + b1 % 256 * 256), toInt16 (b2 % 256 + b3 % 256 * 256),
          toInt16 (b4 % 256 + b5 % 256 * 256),
          ⟨Status.TFL_READY, b5 % 256, gArr st.dataArray b0 b1 b2 b3 b4 b5⟩,
          ⟨[], gLog adr l⟩⟩) := rfl

/-- Value of `toInt16` below the sign boundary. -/
lemma toInt16_of_lt {n : Nat} (h : n < 32768) : toInt16 n = (n : Int) := by
  unfold toInt16
  rw [Nat.mod_eq_of_lt (by omega)]
  rw [if_pos h]

/-- The 16-bit pattern of `toInt16 n` recovers `n` for `n < 65536`. -/
lemma toInt16_emod (n : Nat) (h : n < 65536) : toInt16 n % 65536 = (n : Int) := by
  unfold toInt16
  rw [Nat.mod_eq_of_lt h]
  split <;> omega

/-- The all-ones 16-bit pattern reads back as the signed value `-1`. -/
lemma toInt16_FFFF : toInt16 65535 = -1 := by decide

/-- C3 counterexample: the flux pattern `0x8000` lies in the claimed
range `100 ≤ f < 0xFFFF`, yet the run of `getData` that assembles it
(all six reads succeeding) reports failure with status `TFL_WEAK`,
because the comparison is signed and `(int16_t)0x8000 = -32768 < 100`. -/
theorem C3_pattern_counterexample :
    (100 ≤ 0x8000 ∧ 0x8000 < 0xFFFF) ∧
    (getData oracleWire 0 0 0 TFL_DEF_ADR st0 flux8000Oracle).flux % 65536 = 0x8000 ∧
    (getData oracleWire 0 0 0 TFL_DEF_ADR st0 flux8000Oracle).ok = false ∧
    (getData oracleWire 0 0 0 TFL_DEF_ADR st0 flux8000Oracle).st.tfStatus
      = Status.TFL_WEAK := by
  exact ⟨⟨by decide, by decide⟩, by decide, rfl, rfl⟩

/-- C3 (amended): when all six reads of `getData` succeed and the
assembled flux pattern `f` satisfies `100 ≤ f < 0x8000` (equivalently,
its signed 16-bit interpretation is at least 100), `getData` reports
success and sets the status slot to `TFL_READY`. -/
theorem C3_flux_valid_range_amended (b0 b1 b2 b3 b4 b5 : Nat)
    (h2 : b2 < 256) (h3 : b3 < 256)
    (hf1 : 100 ≤ b2 + b3 * 256) (hf2 : b2 + b3 * 256 < 0x8000)
    (dist flux temp : Int) (adr : Nat) (st : DriverState) (l : List Txn) :
    (getData oracleWire dist flux temp adr st
        ⟨[BusResp.ok b0, BusResp.ok b1, BusResp.ok b2, BusResp.ok b3,
          BusResp.ok b4, BusResp.ok b5], l⟩).ok = true ∧
    (getData oracleWire dist flux temp adr st
        ⟨[BusResp.ok b0, BusResp.ok b1, BusResp.ok b2, BusResp.ok b3,
          BusResp.ok b4, BusResp.ok b5], l⟩).st.tfStatus = Status.TFL_READY := by
  rw [getData_sixOk]
  rw [Nat.mod_eq_of_lt h2, Nat.mod_eq_of_lt h3]
  rw [toInt16_of_lt (show b2 + b3 * 256 < 32768 by omega), toInt16_FFFF]
  have hc1 : ¬((b2 + b3 * 256 : Nat) : Int) < 100 := by omega
  have hc2 : ¬((b2 + b3 * 256 : Nat) : Int) = -1 := by omega
  rw [if_neg hc1, if_neg hc2]
  exact ⟨rfl, rfl⟩

/-- C3 witness: the amended statement applied at flux 200. -/
theorem C3_flux_valid_range_witness :
    (getData oracleWire 0 0 0 TFL_DEF_ADR st0
        ⟨[BusResp.ok 0, BusResp.ok 0, BusResp.ok 200, BusResp.ok 0,
          BusResp.ok 0, BusResp.ok 0], []⟩).ok = true ∧
    (getData oracleWire 0 0 0 TFL_DEF_ADR st0
        ⟨[BusResp.ok 0, BusResp.ok 0, BusResp.ok 200, BusResp.ok 0,
          BusResp.ok 0, BusResp.ok 0], []⟩).st.tfStatus = Status.TFL_READY :=
  C3_flux_valid_range_amended 0 0 200 0 0 0 (by decide) (by decide) (by decide) (by decide)
    0 0 0 TFL_DEF_ADR st0 []

/-- C4: when all six reads of `getData` succeed and the assembled flux,
compared as a signed 16-bit integer, is below 100, `getData` reports
failure with status `TFL_WEAK` regardless of the distance and temperature
bytes, and the three output variables still receive the assembled
values. -/
theorem C4_weak_signal_still_assigns (b0 b1 b2 b3 b4 b5 : Nat)
    (h0 : b0 < 256) (h1 : b1 < 256) (h2 : b2 < 256) (h3 : b3 < 256)
    (h4 : b4 < 256) (h5 : b5 < 256)
    (hw : toInt16 (b2 + b3 * 256) < 100)
    (dist flux temp : Int) (adr : Nat) (st : DriverState) (l : List Txn) :
    (getData oracleWire dist flux temp adr st
        ⟨[BusResp.ok b0, BusResp.ok b1, BusResp.ok b2, BusResp.ok b3,
          BusResp.ok b4, BusResp.ok b5], l⟩).ok = false ∧
    (getData oracleWire dist flux temp adr st
        ⟨[BusResp.ok b0, BusResp.ok b1, BusResp.ok b2, BusResp.ok b3,
          BusResp.ok b4, BusResp.ok b5], l⟩).st.tfStatus = Status.TFL_WEAK ∧
    (getData oracleWire dist flux temp adr st
        ⟨[BusResp.ok b0, BusResp.ok b1, BusResp.ok b2, BusResp.ok b3,
          BusResp.ok b4, BusResp.ok b5], l⟩).dist = toInt16 (b0 + b1 * 256) ∧
    (getData oracleWire dist flux temp adr st
        ⟨[BusResp.ok b0, BusResp.ok b1, BusResp.ok b2, BusResp.ok b3,
          BusResp.ok b4, BusResp.ok b5], l⟩).flux = toInt16 (b2 + b3 * 256) ∧
    (getData oracleWire dist flux temp adr st
        ⟨[BusResp.ok b0, BusResp.ok b1, BusResp.ok b2, BusResp.ok b3,
          BusResp.ok b4, BusResp.ok b5], l⟩).temp = toInt16 (b4 + b5 * 256) := by
  rw [getData_sixOk]
  rw [Nat.mod_eq_of_lt h0, Nat.mod_eq_of_lt h1, Nat.mod_eq_of_lt h2,
    Nat.mod_eq_of_lt h3, Nat.mod_eq_of_lt h4, Nat.mod_eq_of_lt h5]
  rw [if_pos hw]
  exact ⟨rfl, rfl, rfl, rfl, rfl⟩

/-- C4 witness: the theorem applied at flux 50 with nonzero distance and
temperature bytes. -/
theorem C4_weak_signal_still_assigns_witness :
    (getData oracleWire 0 0 0 TFL_DEF_ADR st0
        ⟨[BusResp.ok 1, BusResp.ok 0, BusResp.ok 50, BusResp.ok 0,
          BusResp.ok 2, BusResp.ok 0], []⟩).ok = false ∧
    (getData oracleWire 0 0 0 TFL_DEF_ADR st0
        ⟨[BusResp.ok 1, BusResp.ok 0, BusResp.ok 50, BusResp.ok 0,
          BusResp.ok 2, BusResp.ok 0], []⟩).st.tfStatus = Status.TFL_WEAK ∧
    (getData oracleWire 0 0 0 TFL_DEF_ADR st0
        ⟨[BusResp.ok 1, BusResp.ok 0, BusResp.ok 50, BusResp.ok 0,
          BusResp.ok 2, BusResp.ok 0], []⟩).dist = toInt16 (1 + 0 * 256) ∧
    (getData oracleWire 0 0 0 TFL_DEF_ADR st0
        ⟨[BusResp.ok 1, BusResp.ok 0, BusResp.ok 50, BusResp.ok 0,
          BusResp.ok 2, BusResp.ok 0], []⟩).flux = toInt16 (50 + 0 * 256) ∧
    (getData oracleWire 0 0 0 TFL_DEF_ADR st0
        ⟨[BusResp.ok 1, BusResp.ok 0, BusResp.ok 50, BusResp.ok 0,
          BusResp.ok 2, BusResp.ok 0], []⟩).temp = toInt16 (2 + 0 * 256) :=
  C4_weak_signal_still_assigns 1 0 50 0 2 0 (by decide) (by decide) (by decide) (by decide)
    (by decide) (by decide) (by decide) 0 0 0 TFL_DEF_ADR st0 []

/-- C9: the 16-bit field assembly of `getData` is little-endian: on a run
whose six reads succeed with bytes `b0 .. b5`, the 16-bit patterns of the
three assembled output fields are `b0 + b1*256`, `b2 + b3*256` and
`b4 + b5*256` respectively. -/
theorem C9_little_endian_assembly (b0 b1 b2 b3 b4 b5 : Nat)
    (h0 : b0 < 256) (h1 : b1 < 256) (h2 : b2 < 256) (h3 : b3 < 256)
    (h4 : b4 < 256) (h5 : b5 < 256)
    (dist flux temp : Int) (adr : Nat) (st : DriverState) (l : List Txn) :
    (getData oracleWire dist flux temp adr st
        ⟨[BusResp.ok b0, BusResp.ok b1, BusResp.ok b2, BusResp.ok b3,
          BusResp.ok b4, BusResp.ok b5], l⟩).dist % 65536
      = ((b0 + b1 * 256 : Nat) : Int) ∧
    (getData oracleWire dist flux temp adr st
        ⟨[BusResp.ok b0, BusResp.ok b1, BusResp.ok b2, BusResp.ok b3,
          BusResp.ok b4, BusResp.ok b5], l⟩).flux % 65536
      = ((b2 + b3 * 256 : Nat) : Int) ∧
    (getData oracleWire dist flux temp adr st
        ⟨[BusResp.ok b0, BusResp.ok b1, BusResp.ok b2, BusResp.ok b3,
          BusResp.ok b4, BusResp.ok b5], l⟩).temp % 65536
      = ((b4 + b5 * 256 : Nat) : Int) := by
  rw [getData_sixOk]
  rw [Nat.mod_eq_of_lt h0, Nat.mod_eq_of_lt h1, Nat.mod_eq_of_lt h2,
    Nat.mod_eq_of_lt h3, Nat.mod_eq_of_lt h4, Nat.mod_eq_of_lt h5]
  refine ⟨?_, ?_, ?_⟩ <;>
    (split <;> (try split) <;> exact toInt16_emod _ (by omega))

/-- C9 witness: the distance bytes `0x34, 0x12` assemble to `0x1234`. -/
theorem C9_little_endian_assembly_witness :
    (getData oracleWire 0 0 0 TFL_DEF_ADR st0
        ⟨[BusResp.ok 0x34, BusResp.ok 0x12, BusResp.ok 100, BusResp.ok 0,
          BusResp.ok 0, BusResp.ok 0], []⟩).dist % 65536 = 0x1234 := by
  have h := C9_little_endian_assembly 0x34 0x12 100 0 0 0 (by decide) (by decide) (by decide)
    (by decide) (by decide) (by decide) 0 0 0 TFL_DEF_ADR st0 []
  exact h.1

end TFLI2C
